import Mathlib

/-!
Verification of the order-execution core of the Solana DEX trading bot
(TypeScript sources under src/). Each part of the code that the checked
properties depend on is embedded as executable Lean definitions:

* `src/services/dex-aggregator.ts` — quote selection and aggregation;
* `src/db/repository.ts` — order status updates and retry logging;
* `src/workers/order-processor.ts` — worker retry loop and backoff;
* `src/routes/index.ts` — admission validation and WebSocket streaming;
* `src/db/redis.ts` — rate-limit counter with in-memory fallback;
* `src/config/index.ts` — default configuration constants.

TypeScript `BigInt(string)` amounts are embedded as their integer values
(`Int`), `number` price-impact percentages as rationals (`Rat`; the code
only ever compares them), Dates as `Nat` timestamps, and nullable fields
as `Option`.
-/

namespace DexBot

/-- Order types, from `OrderType` in `src/types/index.ts`. -/
inductive OrderType
  | MARKET
  | LIMIT
  | SNIPER
deriving DecidableEq, Repr

/-- Order lifecycle statuses, from `OrderStatus` in `src/types/index.ts`. -/
inductive OrderStatus
  | PENDING
  | ROUTING
  | BUILDING
  | SUBMITTED
  | CONFIRMED
  | FAILED
deriving DecidableEq, Repr

/-- The two execution venues, from `DEXPlatform` in `src/types/index.ts`. -/
inductive DEXPlatform
  | RAYDIUM
  | METEORA
deriving DecidableEq, Repr

/-- Venue quote, from `DEXQuote` in `src/types/index.ts`. Amount strings
are embedded as the `BigInt` values the aggregator converts them to. -/
structure DEXQuote where
  dex : DEXPlatform
  inputToken : String
  outputToken : String
  inputAmount : Int
  outputAmount : Int
  priceImpact : Rat
  minimumReceived : Int
  fee : Int
deriving DecidableEq, Repr

/-- Which branch of `selectBestQuote` produced the decision. The TS code
builds a human-readable `reason` string in each branch; its numeric parts
go through float formatting (`toFixed`), so the string rendering is
abstracted to this tag, keeping the branch structure and the integer
`percentBetter` computation `difference * 10000 / losingOutput` (BigInt
truncating division). -/
inductive SelectionReason
  | onlyRaydium
  | onlyMeteora
  | raydiumBetterOutput (percentBetterBps : Int)
  | meteoraBetterOutput (percentBetterBps : Int)
  | equalOutputRaydiumImpact
  | equalOutputMeteoraImpact
deriving DecidableEq, Repr

/-- Result record of `DEXAggregator.selectBestQuote`. -/
structure SelectResult where
  bestQuote : DEXQuote
  selectedDex : DEXPlatform
  reason : SelectionReason
deriving DecidableEq, Repr

/-- `DEXAggregator.selectBestQuote` from `src/services/dex-aggregator.ts`
(lines 111–176): single-quote fallbacks first, then output-amount
comparison, then price-impact tie-break; the unreachable no-quote case
throws. -/
def selectBestQuote (raydiumQuote meteoraQuote : Option DEXQuote) :
    Except String SelectResult :=
  match raydiumQuote, meteoraQuote with
  | some rq, none =>
      Except.ok ⟨rq, DEXPlatform.RAYDIUM, SelectionReason.onlyRaydium⟩
  | none, some mq =>
      Except.ok ⟨mq, DEXPlatform.METEORA, SelectionReason.onlyMeteora⟩
  | some rq, some mq =>
      let raydiumOutput := rq.outputAmount
      let meteoraOutput := mq.outputAmount
      if raydiumOutput > meteoraOutput then
        Except.ok ⟨rq, DEXPlatform.RAYDIUM,
          SelectionReason.raydiumBetterOutput
            ((raydiumOutput - meteoraOutput) * 10000 / meteoraOutput)⟩
      else if meteoraOutput > raydiumOutput then
        Except.ok ⟨mq, DEXPlatform.METEORA,
          SelectionReason.meteoraBetterOutput
            ((meteoraOutput - raydiumOutput) * 10000 / raydiumOutput)⟩
      else if rq.priceImpact < mq.priceImpact then
        Except.ok ⟨rq, DEXPlatform.RAYDIUM,
          SelectionReason.equalOutputRaydiumImpact⟩
      else
        Except.ok ⟨mq, DEXPlatform.METEORA,
          SelectionReason.equalOutputMeteoraImpact⟩
  | none, none => Except.error "No valid quotes available"

/-- Routing decision record, from `RoutingDecision` in `src/types/index.ts`. -/
structure RoutingDecision where
  orderId : String
  raydiumQuote : Option DEXQuote
  meteoraQuote : Option DEXQuote
  selectedDex : DEXPlatform
  reason : SelectionReason
  timestamp : Nat
deriving DecidableEq, Repr

/-- A settled venue quote request: `fulfilled` with a quote or `rejected`
with an error message (the aggregator awaits both with
`Promise.allSettled`). -/
def settledQuote : Except String DEXQuote → Option DEXQuote
  | Except.ok q => some q
  | Except.error _ => none

/-- The per-venue error strings pushed by `getBestQuote` for a rejected
quote request (`errors.push` in `src/services/dex-aggregator.ts`). -/
def quoteErrors (venue : String) : Except String DEXQuote → List String
  | Except.ok _ => []
  | Except.error e => [venue ++ ": " ++ e]

/-- `DEXAggregator.getBestQuote` from `src/services/dex-aggregator.ts`
(lines 24–90), given the settled results of the two concurrent venue
quote requests: collects per-venue errors, throws
`All DEX quotes failed: ...` when both rejected, otherwise selects the
best quote and builds the `RoutingDecision` that is appended to the
database. -/
def getBestQuote (orderId : String) (now : Nat)
    (raydiumResult meteoraResult : Except String DEXQuote) :
    Except String (DEXQuote × RoutingDecision) :=
  let raydiumQuote := settledQuote raydiumResult
  let meteoraQuote := settledQuote meteoraResult
  let errors := quoteErrors "Raydium" raydiumResult ++
    quoteErrors "Meteora" meteoraResult
  match raydiumQuote, meteoraQuote with
  | none, none =>
      Except.error ("All DEX quotes failed: " ++ String.intercalate "; " errors)
  | rq, mq =>
      match selectBestQuote rq mq with
      | Except.error e => Except.error e
      | Except.ok r =>
          Except.ok (r.bestQuote, ⟨orderId, rq, mq, r.selectedDex, r.reason, now⟩)

namespace Config

/-- `config.retry.maxAttempts` default from `src/config/index.ts`. -/
def maxAttempts : Nat := 3

/-- `config.retry.backoffMs` default from `src/config/index.ts`. -/
def backoffMs : Nat := 1000

/-- `config.retry.backoffMultiplier` from `src/config/index.ts`. -/
def backoffMultiplier : Nat := 2

/-- `config.queue.maxConcurrentOrders` default from `src/config/index.ts`. -/
def maxConcurrentOrders : Nat := 10

/-- `config.rateLimit.maxRequests` from `src/config/index.ts`. -/
def maxRequests : Nat := 100

end Config

/-- Order record, from `Order` in `src/types/index.ts` (and the `orders`
table row it is persisted as). `type` and `side` are kept as the raw
strings the unvalidated request body supplies at runtime. -/
structure Order where
  id : String
  userId : String
  type : String
  side : String
  inputToken : String
  outputToken : String
  inputAmount : String
  outputAmount : Option String
  slippageBps : Int
  status : OrderStatus
  selectedDex : Option DEXPlatform
  executionPrice : Option String
  txSignature : Option String
  failureReason : Option String
  retryCount : Nat
  createdAt : Nat
  updatedAt : Nat
  completedAt : Option Nat
deriving DecidableEq, Repr

/-- The optional `updates` argument of `OrderRepository.updateOrderStatus`
(a `Partial<Order>`; absent fields are `none`). -/
structure OrderUpdates where
  selectedDex : Option DEXPlatform
  executionPrice : Option String
  txSignature : Option String
  failureReason : Option String
  retryCount : Option Nat
deriving DecidableEq, Repr

/-- An `updates` argument with no fields set (`{}` in the TS call sites). -/
def noUpdates : OrderUpdates := ⟨none, none, none, none, none⟩

/-- JS truthiness guard used by `updateOrderStatus` on optional string
fields (`if (updates.executionPrice)` …): present and non-empty. -/
def truthyString : Option String → Bool
  | none => false
  | some s => s ≠ ""

/-- `OrderRepository.updateOrderStatus` from `src/db/repository.ts`
(lines 43–91), as its effect on the targeted order row: sets `status` and
`updated_at` unconditionally, copies each update field whose JS-truthiness
guard passes (`retryCount` uses an explicit `!== undefined` check), and
sets `completed_at` when the new status is CONFIRMED or FAILED. No
transition validation is performed. -/
def updateOrderStatus (row : Order) (status : OrderStatus)
    (updates : OrderUpdates) (now : Nat) : Order :=
  { row with
    status := status
    updatedAt := now
    selectedDex :=
      match updates.selectedDex with
      | some d => some d
      | none => row.selectedDex
    executionPrice :=
      if truthyString updates.executionPrice then updates.executionPrice
      else row.executionPrice
    txSignature :=
      if truthyString updates.txSignature then updates.txSignature
      else row.txSignature
    failureReason :=
      if truthyString updates.failureReason then updates.failureReason
      else row.failureReason
    retryCount :=
      match updates.retryCount with
      | some n => n
      | none => row.retryCount
    completedAt :=
      if status = OrderStatus.CONFIRMED ∨ status = OrderStatus.FAILED then
        some now
      else row.completedAt }

/-- A `retry_logs` row appended by `OrderRepository.logRetry`
(`src/db/repository.ts`, lines 146–158). The `retry_after_ms` column is
nullable in the schema, hence `Option`. -/
structure RetryLog where
  orderId : String
  attemptNumber : Nat
  errorMessage : String
  retryAfterMs : Option Nat
deriving DecidableEq, Repr

/-- `calculateBackoffDelay` from `src/workers/order-processor.ts`
(lines 681–683): `backoffMs * backoffMultiplier ^ (attemptNumber - 1)`. -/
def calculateBackoffDelay (attemptNumber : Nat) : Nat :=
  Config.backoffMs * Config.backoffMultiplier ^ (attemptNumber - 1)

/-- Outcome of one processing attempt of an order's pipeline
(`processMarketOrder` either completes or throws with an error message). -/
inductive AttemptOutcome
  | success
  | failure (msg : String)
deriving DecidableEq, Repr

/-- Observable result of running an order through the worker: the final
order status, the failure reason written with it (if any), and the
`retry_logs` rows appended, in order. -/
structure WorkerRun where
  finalStatus : OrderStatus
  failureReason : Option String
  logs : List RetryLog
deriving DecidableEq, Repr

/-- The retry loop of `orderWorker` in `src/workers/order-processor.ts`
(lines 395–459) run against a list of per-attempt outcomes, starting with
`job.attemptsMade = attemptsMade` and the retry logs accumulated so far
(most recent first). A successful attempt ends the job CONFIRMED (the
last transition of `processMarketOrder`). A failed attempt appends a
`retry_logs` row with `calculateBackoffDelay(attemptsMade + 1)`; when it
was the last allowed attempt the order is marked FAILED with the
`Failed after N attempts: ...` reason, otherwise BullMQ re-runs the job.
An empty outcome list leaves the job waiting for its next attempt
(status PENDING stands for "no terminal transition was made"). -/
def runWorkerGo (orderId : String) :
    List AttemptOutcome → Nat → List RetryLog → WorkerRun
  | [], _, acc => ⟨OrderStatus.PENDING, none, acc.reverse⟩
  | AttemptOutcome.success :: _, _, acc =>
      ⟨OrderStatus.CONFIRMED, none, acc.reverse⟩
  | AttemptOutcome.failure msg :: rest, attemptsMade, acc =>
      let log : RetryLog :=
        ⟨orderId, attemptsMade + 1, msg,
          some (calculateBackoffDelay (attemptsMade + 1))⟩
      if attemptsMade + 1 ≥ Config.maxAttempts then
        ⟨OrderStatus.FAILED,
          some ("Failed after " ++ toString Config.maxAttempts ++
            " attempts: " ++ msg),
          (log :: acc).reverse⟩
      else
        runWorkerGo orderId rest (attemptsMade + 1) (log :: acc)

/-- Run a fresh job (attempt counter 0, no logs yet) against the given
per-attempt outcomes. -/
def runWorker (orderId : String) (outcomes : List AttemptOutcome) : WorkerRun :=
  runWorkerGo orderId outcomes 0 []

/-- State of the `RedisCache` client (`src/db/redis.ts`): `unavailable`
when `this.redis` is `null` (never connected / errored out), `failing`
when the client exists but `incr` throws, `available` with the current
per-key counters otherwise. -/
inductive RedisState
  | unavailable
  | failing
  | available (counters : String → Nat)

/-- `RedisCache.incrementRateLimit` from `src/db/redis.ts` (lines
189–209): increments `ratelimit:{userId}` when Redis works; on a null
client or a thrown `incr` it falls through to the in-memory fallback,
which always returns 1. Returns the count together with the updated
state. -/
def incrementRateLimit (st : RedisState) (userId : String) :
    Nat × RedisState :=
  match st with
  | RedisState.unavailable => (1, RedisState.unavailable)
  | RedisState.failing => (1, RedisState.failing)
  | RedisState.available counters =>
      let key := "ratelimit:" ++ userId
      let count := counters key + 1
      (count, RedisState.available (fun k => if k = key then count else counters k))

/-- `RedisCache.isRateLimited` from `src/db/redis.ts` (lines 214–217):
increments and compares against `config.rateLimit.maxRequests`. -/
def isRateLimited (st : RedisState) (userId : String) : Bool :=
  (incrementRateLimit st userId).1 > Config.maxRequests

/-- Request body of `POST /api/orders/execute` (`CreateOrderRequest` in
`src/types/index.ts`); every field may be absent in the raw JSON, and
`type` / `side` arrive as unvalidated strings. -/
structure CreateOrderRequest where
  userId : Option String
  type : Option String
  side : Option String
  inputToken : Option String
  outputToken : Option String
  inputAmount : Option String
  outputAmount : Option String
  slippageBps : Option Int
deriving DecidableEq, Repr

/-- Outcome of the `POST /api/orders/execute` handler: an HTTP rejection
(status code and error payload) before any order exists, or a created
order that was saved, cached and enqueued. -/
inductive AdmissionResult
  | rejected (code : Nat) (error : String)
  | created (order : Order)
deriving DecidableEq, Repr

/-- The valid `OrderType` enum values checked by
`Object.values(OrderType).includes(type)`. -/
def orderTypeValues : List String := ["MARKET", "LIMIT", "SNIPER"]

/-- The `POST /api/orders/execute` handler from `src/routes/index.ts`
(lines 1045–1154 of the route module): destructuring defaults for
`userId` and `slippageBps`, the missing-required-fields truthiness check,
the order-type membership check, the LIMIT-requires-outputAmount check,
the per-user rate limit, and finally creation of a PENDING order that is
persisted and enqueued. -/
def executeOrderRoute (req : CreateOrderRequest) (redis : RedisState)
    (orderId : String) (now : Nat) : AdmissionResult :=
  let userId := req.userId.getD "default"
  let slippageBps := req.slippageBps.getD 100
  if ¬ (truthyString req.type ∧ truthyString req.side ∧
      truthyString req.inputToken ∧ truthyString req.outputToken ∧
      truthyString req.inputAmount) then
    AdmissionResult.rejected 400 "Missing required fields"
  else if ¬ (req.type.getD "") ∈ orderTypeValues then
    AdmissionResult.rejected 400
      "Invalid order type. Must be one of: MARKET, LIMIT, SNIPER"
  else if req.type.getD "" = "LIMIT" ∧ ¬ truthyString req.outputAmount then
    AdmissionResult.rejected 400 "LIMIT orders require outputAmount"
  else if isRateLimited redis userId then
    AdmissionResult.rejected 429
      "Rate limit exceeded. Maximum 100 orders per minute."
  else
    AdmissionResult.created
      { id := orderId
        userId := userId
        type := req.type.getD ""
        side := req.side.getD ""
        inputToken := req.inputToken.getD ""
        outputToken := req.outputToken.getD ""
        inputAmount := req.inputAmount.getD ""
        outputAmount := req.outputAmount
        slippageBps := slippageBps
        status := OrderStatus.PENDING
        selectedDex := none
        executionPrice := none
        txSignature := none
        failureReason := none
        retryCount := 0
        createdAt := now
        updatedAt := now
        completedAt := none }

/-- The order carried by a `created` admission result, if any. -/
def admittedOrder : AdmissionResult → Option Order
  | AdmissionResult.created o => some o
  | AdmissionResult.rejected _ _ => none

/-- WebSocket message types (`WSMessageType` in `src/types/index.ts`). -/
inductive WSMessageType
  | ORDER_STATUS
  | ORDER_ROUTING
  | ORDER_EXECUTION
  | ORDER_COMPLETE
  | ORDER_FAILED
  | ERROR
deriving DecidableEq, Repr

/-- Payload of a WebSocket message. The subscribe handler sends either a
status snapshot (`data: { status, order }`) or a not-found error
(`data: { error }`); messages built by the worker carry various
per-event fields, abstracted here as an opaque payload tag. -/
inductive WSData
  | orderSnapshot (status : OrderStatus) (order : Order)
  | errorMessage (error : String)
  | workerPayload
deriving DecidableEq, Repr

/-- WebSocket message (`WSMessage` in `src/types/index.ts`). -/
structure WSMessage where
  type : WSMessageType
  orderId : String
  timestamp : Nat
  data : WSData
deriving DecidableEq, Repr

/-- One client WebSocket connection: whether the socket is open and the
messages sent to it so far, oldest first. -/
structure WSConn where
  isOpen : Bool
  sent : List WSMessage
deriving DecidableEq, Repr

/-- The `GET /ws/orders/:orderId` handler from `src/routes/index.ts`
(lines 1206–1272 of the route module), as its effect on the connecting
client: after registering the connection it looks the order up (cache,
then database — `found` is that lookup's result); if found it sends a
synthetic `ORDER_STATUS` snapshot of the order's current state and leaves
the socket open, otherwise it sends an `ERROR` message and closes the
socket. -/
def subscribeToOrder (orderId : String) (found : Option Order) (now : Nat)
    (conn : WSConn) : WSConn :=
  match found with
  | some order =>
      { isOpen := conn.isOpen
        sent := conn.sent ++
          [⟨WSMessageType.ORDER_STATUS, orderId, now,
            WSData.orderSnapshot order.status order⟩] }
  | none =>
      { isOpen := false
        sent := conn.sent ++
          [⟨WSMessageType.ERROR, orderId, now,
            WSData.errorMessage "Order not found"⟩] }

/-- `broadcastOrderUpdate` from `src/routes/index.ts` (lines 1292–1310),
as its effect on the connections registered for the order: the message is
sent to every registered connection (a send to a closed socket throws and
is caught, delivering nothing). No connection is ever closed here,
whatever the message type. -/
def broadcastOrderUpdate (message : WSMessage) (conns : List WSConn) :
    List WSConn :=
  conns.map fun c =>
    if c.isOpen then { isOpen := c.isOpen, sent := c.sent ++ [message] } else c

/-- Where an order's BullMQ job currently is: waiting in the queue,
held by one of the worker's concurrent processors, delayed for a retry
backoff, or finished (terminal status written). -/
inductive WorkerMode
  | queued
  | active
  | delayed
  | done
deriving DecidableEq, Repr

/-- Per-order view of the dispatcher: the order's persisted status, its
job's scheduling mode, and `job.attemptsMade`. -/
structure OrderProc where
  status : OrderStatus
  mode : WorkerMode
  attemptsMade : Nat
deriving DecidableEq, Repr

/-- Number of orders whose jobs are being processed concurrently. -/
def countActive (s : List OrderProc) : Nat :=
  s.countP fun o => decide (o.mode = WorkerMode.active)

/-- Number of orders whose persisted status is ROUTING, BUILDING or
SUBMITTED. -/
def countPipeline (s : List OrderProc) : Nat :=
  s.countP fun o =>
    decide (o.status = OrderStatus.ROUTING ∨
      o.status = OrderStatus.BUILDING ∨ o.status = OrderStatus.SUBMITTED)

/-- Small-step semantics of the concurrency-bounded dispatcher: the
`orderWorker` pipeline of `src/workers/order-processor.ts` run by a
BullMQ worker with `concurrency := N`. A queued or retry-delayed job
starts only while fewer than `N` jobs are active, and its first act is
the transition to ROUTING (`processMarketOrder`). An active job walks
ROUTING → BUILDING → SUBMITTED → CONFIRMED. A thrown error ends the
active job: with attempts left the job is re-queued as delayed — the
catch block logs the retry but writes no status, so the order keeps the
pipeline status it had — and on the last attempt the order is marked
FAILED. -/
inductive Step (N : Nat) : List OrderProc → List OrderProc → Prop
  | start (s : List OrderProc) (i : Nat) (st : OrderStatus)
      (mode : WorkerMode) (m : Nat) :
      s[i]? = some ⟨st, mode, m⟩ →
      (mode = WorkerMode.queued ∨ mode = WorkerMode.delayed) →
      countActive s < N →
      Step N s (s.set i ⟨OrderStatus.ROUTING, WorkerMode.active, m⟩)
  | toBuilding (s : List OrderProc) (i : Nat) (m : Nat) :
      s[i]? = some ⟨OrderStatus.ROUTING, WorkerMode.active, m⟩ →
      Step N s (s.set i ⟨OrderStatus.BUILDING, WorkerMode.active, m⟩)
  | toSubmitted (s : List OrderProc) (i : Nat) (m : Nat) :
      s[i]? = some ⟨OrderStatus.BUILDING, WorkerMode.active, m⟩ →
      Step N s (s.set i ⟨OrderStatus.SUBMITTED, WorkerMode.active, m⟩)
  | toConfirmed (s : List OrderProc) (i : Nat) (m : Nat) :
      s[i]? = some ⟨OrderStatus.SUBMITTED, WorkerMode.active, m⟩ →
      Step N s (s.set i ⟨OrderStatus.CONFIRMED, WorkerMode.done, m⟩)
  | failRetry (s : List OrderProc) (i : Nat) (st : OrderStatus) (m : Nat) :
      s[i]? = some ⟨st, WorkerMode.active, m⟩ →
      m + 1 < Config.maxAttempts →
      Step N s (s.set i ⟨st, WorkerMode.delayed, m + 1⟩)
  | failFinal (s : List OrderProc) (i : Nat) (st : OrderStatus) (m : Nat) :
      s[i]? = some ⟨st, WorkerMode.active, m⟩ →
      Config.maxAttempts ≤ m + 1 →
      Step N s (s.set i ⟨OrderStatus.FAILED, WorkerMode.done, m + 1⟩)

/-- Dispatcher states reachable from a batch of freshly admitted orders
(all PENDING and queued) by the step semantics. -/
inductive Reachable (N : Nat) : List OrderProc → Prop
  | init (k : Nat) :
      Reachable N (List.replicate k ⟨OrderStatus.PENDING, WorkerMode.queued, 0⟩)
  | step {s s' : List OrderProc} :
      Reachable N s → Step N s s' → Reachable N s'

/-! Helper lemmas shared by the correctness theorems. -/

/-- A non-empty left factor makes a string append non-empty. -/
lemma append_ne_empty_of_left (a b : String) (ha : a.length ≠ 0) :
    a ++ b ≠ "" := by
  intro h
  have hl := congrArg String.length h
  rw [String.length_append] at hl
  have h0 : ("" : String).length = 0 := rfl
  omega

/-- Whenever at least one quote is available, `selectBestQuote` succeeds
and the winner is one of the given quotes. -/
lemma selectBestQuote_ok_mem (ro mo : Option DEXQuote)
    (hnn : ro.isSome ∨ mo.isSome) :
    ∃ res, selectBestQuote ro mo = Except.ok res ∧
      res.bestQuote ∈ ro.toList ++ mo.toList := by
  cases ro with
  | none =>
    cases mo with
    | none => simp at hnn
    | some mq => exact ⟨_, rfl, by simp⟩
  | some rq =>
    cases mo with
    | none => exact ⟨_, rfl, by simp⟩
    | some mq =>
      by_cases h1 : rq.outputAmount > mq.outputAmount
      · exact ⟨⟨rq, DEXPlatform.RAYDIUM, SelectionReason.raydiumBetterOutput
            ((rq.outputAmount - mq.outputAmount) * 10000 / mq.outputAmount)⟩,
          by simp [selectBestQuote, h1], by simp⟩
      · by_cases h2 : mq.outputAmount > rq.outputAmount
        · exact ⟨⟨mq, DEXPlatform.METEORA, SelectionReason.meteoraBetterOutput
              ((mq.outputAmount - rq.outputAmount) * 10000 / rq.outputAmount)⟩,
            by simp [selectBestQuote, h1, h2], by simp⟩
        · by_cases h3 : rq.priceImpact < mq.priceImpact
          · exact ⟨⟨rq, DEXPlatform.RAYDIUM,
              SelectionReason.equalOutputRaydiumImpact⟩,
              by simp [selectBestQuote, h1, h2, h3], by simp⟩
          · exact ⟨⟨mq, DEXPlatform.METEORA,
              SelectionReason.equalOutputMeteoraImpact⟩,
              by simp [selectBestQuote, h1, h2, h3], by simp⟩

/-- C1. In every aggregation pass with at least one successful venue
quote, `selectBestQuote` picks a quote whose output amount is greatest
among the successful quotes; with exactly equal outputs the strictly
lower price impact wins; and a full tie goes to the fixed venue priority
(Meteora), so the choice is a deterministic function of the quote
inputs. -/
theorem c1_selectBestQuote_greatest_output_then_impact_then_priority
    (ro mo : Option DEXQuote) (res : SelectResult)
    (h : selectBestQuote ro mo = Except.ok res) :
    (∀ q ∈ ro.toList ++ mo.toList, q.outputAmount ≤ res.bestQuote.outputAmount)
    ∧ (∀ rq mq, ro = some rq → mo = some mq →
        rq.outputAmount = mq.outputAmount →
        ((rq.priceImpact < mq.priceImpact →
            res.bestQuote = rq ∧ res.selectedDex = DEXPlatform.RAYDIUM)
          ∧ (mq.priceImpact < rq.priceImpact →
            res.bestQuote = mq ∧ res.selectedDex = DEXPlatform.METEORA)
          ∧ (rq.priceImpact = mq.priceImpact →
            res.selectedDex = DEXPlatform.METEORA))) := by
  cases ro with
  | none =>
    cases mo with
    | none => simp [selectBestQuote] at h
    | some mq =>
      simp [selectBestQuote] at h
      subst h
      simp
  | some rq =>
    cases mo with
    | none =>
      simp [selectBestQuote] at h
      subst h
      simp
    | some mq =>
      by_cases h1 : rq.outputAmount > mq.outputAmount
      · simp [selectBestQuote, h1] at h
        subst h
        refine ⟨?_, ?_⟩
        · intro q hq
          simp at hq
          rcases hq with hq | hq <;> subst hq
          · exact le_refl _
          · exact le_of_lt h1
        · intro rq' mq' hr hm heq
          cases Option.some.inj hr
          cases Option.some.inj hm
          exfalso
          omega
      · by_cases h2 : mq.outputAmount > rq.outputAmount
        · simp [selectBestQuote, h1, h2] at h
          subst h
          refine ⟨?_, ?_⟩
          · intro q hq
            simp at hq
            rcases hq with hq | hq <;> subst hq
            · exact le_of_lt h2
            · exact le_refl _
          · intro rq' mq' hr hm heq
            cases Option.some.inj hr
            cases Option.some.inj hm
            exfalso
            omega
        · by_cases h3 : rq.priceImpact < mq.priceImpact
          · simp [selectBestQuote, h1, h2, h3] at h
            subst h
            refine ⟨?_, ?_⟩
            · intro q hq
              simp at hq
              rcases hq with hq | hq <;> subst hq
              · exact le_refl _
              · exact le_of_not_lt h2
            · intro rq' mq' hr hm heq
              cases Option.some.inj hr
              cases Option.some.inj hm
              refine ⟨fun _ => ⟨rfl, rfl⟩, ?_, ?_⟩
              · intro h4
                exact absurd h4 (lt_asymm h3)
              · intro h4
                exact absurd (h4 ▸ h3) (lt_irrefl _)
          · simp [selectBestQuote, h1, h2, h3] at h
            subst h
            refine ⟨?_, ?_⟩
            · intro q hq
              simp at hq
              rcases hq with hq | hq <;> subst hq
              · exact le_of_not_lt h1
              · exact le_refl _
            · intro rq' mq' hr hm heq
              cases Option.some.inj hr
              cases Option.some.inj hm
              exact ⟨fun h4 => absurd h4 h3, fun _ => ⟨rfl, rfl⟩, fun _ => rfl⟩

/-- Sample Raydium quote (mock venue output for input 1000000 at 100 bps
slippage: output 997000, impact 0.5%). -/
def quoteR : DEXQuote :=
  ⟨DEXPlatform.RAYDIUM, "SOL", "USDC", 1000000, 997000, 1/2, 987030, 3000⟩

/-- Sample Meteora quote (mock venue output for input 1000000 at 100 bps
slippage: output 998000, impact 0.3%). -/
def quoteM : DEXQuote :=
  ⟨DEXPlatform.METEORA, "SOL", "USDC", 1000000, 998000, 3/10, 988020, 2000⟩

/-- The selection result for `quoteR` vs `quoteM`: Meteora wins on
output, 10 truncated basis points better. -/
def selResRM : SelectResult :=
  ⟨quoteM, DEXPlatform.METEORA, SelectionReason.meteoraBetterOutput 10⟩

/-- C1 witness: the selection theorem applied to the two concrete sample
quotes. -/
theorem c1_selectBestQuote_greatest_output_witness :
    selectBestQuote (some quoteR) (some quoteM) = Except.ok selResRM
    ∧ (∀ q ∈ (some quoteR).toList ++ (some quoteM).toList,
        q.outputAmount ≤ selResRM.bestQuote.outputAmount) :=
  ⟨rfl,
    (c1_selectBestQuote_greatest_output_then_impact_then_priority
      (some quoteR) (some quoteM) selResRM rfl).1⟩

/-- C2. `getBestQuote` tolerates partial failure: whenever at least one
venue quote request fulfilled, it returns a quote drawn from the
successful quotes; when both rejected, it throws the
`All DEX quotes failed` error carrying both per-venue error messages. -/
theorem c2_getBestQuote_partial_failure_tolerance :
    (∀ (oid : String) (now : Nat) (r m : Except String DEXQuote),
      ((∃ q, r = Except.ok q) ∨ ∃ q, m = Except.ok q) →
      ∃ v, getBestQuote oid now r m = Except.ok v ∧
        v.1 ∈ (settledQuote r).toList ++ (settledQuote m).toList)
    ∧ (∀ (oid : String) (now : Nat) (e1 e2 : String),
      getBestQuote oid now (Except.error e1) (Except.error e2) =
        Except.error ("All DEX quotes failed: " ++ ("Raydium: " ++ e1) ++
          "; " ++ ("Meteora: " ++ e2))) := by
  constructor
  · intro oid now r m hok
    have hsome : (settledQuote r).isSome ∨ (settledQuote m).isSome := by
      rcases hok with ⟨q, hq⟩ | ⟨q, hq⟩ <;> subst hq <;> simp [settledQuote]
    obtain ⟨res, hsel, hmem⟩ :=
      selectBestQuote_ok_mem (settledQuote r) (settledQuote m) hsome
    refine ⟨(res.bestQuote,
      ⟨oid, settledQuote r, settledQuote m, res.selectedDex, res.reason, now⟩),
      ?_, hmem⟩
    cases r with
    | ok q =>
      cases m with
      | ok q2 => simp [getBestQuote, settledQuote] at hsel ⊢; rw [hsel]
      | error e => simp [getBestQuote, settledQuote] at hsel ⊢; rw [hsel]
    | error e =>
      cases m with
      | ok q2 => simp [getBestQuote, settledQuote] at hsel ⊢; rw [hsel]
      | error e2 =>
        exfalso
        rcases hok with ⟨q, hq⟩ | ⟨q, hq⟩ <;> simp at hq
  · intro oid now e1 e2
    rfl

/-- C2 witness: one venue rejected, the other fulfilled with the sample
Meteora quote. -/
theorem c2_getBestQuote_partial_failure_witness :
    ((∃ q, (Except.error "timeout" : Except String DEXQuote) = Except.ok q) ∨
      ∃ q, (Except.ok quoteM : Except String DEXQuote) = Except.ok q)
    ∧ ∃ v, getBestQuote "order-1" 5 (Except.error "timeout") (Except.ok quoteM) =
        Except.ok v ∧
        v.1 ∈ (settledQuote (Except.error "timeout")).toList ++
          (settledQuote (Except.ok quoteM)).toList :=
  ⟨Or.inr ⟨quoteM, rfl⟩,
    c2_getBestQuote_partial_failure_tolerance.1 "order-1" 5
      (Except.error "timeout") (Except.ok quoteM) (Or.inr ⟨quoteM, rfl⟩)⟩

/-- A sample order row that has already reached the terminal CONFIRMED
status. -/
def confirmedOrder : Order :=
  { id := "order-7"
    userId := "user-1"
    type := "MARKET"
    side := "BUY"
    inputToken := "SOL"
    outputToken := "USDC"
    inputAmount := "1000000"
    outputAmount := none
    slippageBps := 100
    status := OrderStatus.CONFIRMED
    selectedDex := some DEXPlatform.METEORA
    executionPrice := some "1002"
    txSignature := some "sig-1"
    failureReason := none
    retryCount := 0
    createdAt := 1
    updatedAt := 3
    completedAt := some 3 }

/-- C3 counterexample: requesting the illegal transition
CONFIRMED → ROUTING does not fail — `updateOrderStatus` simply applies
it, so the status-update operation performs transitions the state
machine forbids. -/
theorem c3_illegal_transition_counterexample :
    (updateOrderStatus confirmedOrder OrderStatus.ROUTING noUpdates 9).status =
      OrderStatus.ROUTING := rfl

/-- C3 amended: `OrderRepository.updateOrderStatus` performs no
transition validation at all — whatever the row's current status, the
requested status (legal or illegal) is written unconditionally, together
with the new `updated_at`; nothing fails loudly. -/
theorem c3_updateOrderStatus_applies_any_transition
    (row : Order) (status : OrderStatus) (updates : OrderUpdates) (now : Nat) :
    (updateOrderStatus row status updates now).status = status
    ∧ (updateOrderStatus row status updates now).updatedAt = now := by
  constructor <;> rfl

/-- C4. An order whose three attempts all fail accumulates exactly three
`retry_logs` rows and ends FAILED with a non-empty failure reason; an
order that fails once and succeeds on attempt 2 accumulates exactly one
`retry_logs` row and ends CONFIRMED. -/
theorem c4_worker_retry_accounting
    (oid e1 e2 e3 e : String) :
    ((runWorker oid [AttemptOutcome.failure e1, AttemptOutcome.failure e2,
        AttemptOutcome.failure e3]).logs.length = 3
      ∧ (runWorker oid [AttemptOutcome.failure e1, AttemptOutcome.failure e2,
          AttemptOutcome.failure e3]).finalStatus = OrderStatus.FAILED
      ∧ ∃ s, (runWorker oid [AttemptOutcome.failure e1, AttemptOutcome.failure e2,
          AttemptOutcome.failure e3]).failureReason = some s ∧ s ≠ "")
    ∧ ((runWorker oid [AttemptOutcome.failure e,
        AttemptOutcome.success]).logs.length = 1
      ∧ (runWorker oid [AttemptOutcome.failure e,
          AttemptOutcome.success]).finalStatus = OrderStatus.CONFIRMED) := by
  refine ⟨⟨?_, ?_, ?_⟩, ?_, ?_⟩
  · rfl
  · rfl
  · refine ⟨"Failed after " ++ toString Config.maxAttempts ++ " attempts: " ++ e3,
      rfl, ?_⟩
    have h : ("Failed after " ++ toString Config.maxAttempts ++ " attempts: "
        ++ e3) = ("Failed after 3 attempts: ") ++ e3 := by
      rfl
    rw [h]
    exact append_ne_empty_of_left "Failed after 3 attempts: " e3 (by decide)
  · rfl
  · rfl

/-- C5 counterexample: the final (3rd) failed attempt does record a
next-delay value — its `retry_logs` row carries `retry_after_ms = 4000`
(`4 · base`), not null, even though no further attempt is scheduled. -/
theorem c5_final_attempt_records_delay_counterexample :
    ((runWorker "order-9" [AttemptOutcome.failure "a", AttemptOutcome.failure "b",
      AttemptOutcome.failure "c"]).logs.map RetryLog.retryAfterMs).getLast? =
      some (some 4000) := rfl

/-- C5 amended: the backoff delay recorded with failed attempt `k + 1` is
`base_delay * 2 ^ k` — 1000, 2000, 4000 ms for attempts 1, 2, 3 — and the
worker records it for every failed attempt, including the final third
attempt (whose 4000 ms delay is logged even though no further attempt is
scheduled). -/
theorem c5_backoff_delay_per_attempt
    (k : Nat) (oid e1 e2 e3 : String) :
    calculateBackoffDelay (k + 1) = Config.backoffMs * 2 ^ k
    ∧ ((runWorker oid [AttemptOutcome.failure e1, AttemptOutcome.failure e2,
        AttemptOutcome.failure e3]).logs.map RetryLog.retryAfterMs) =
      [some 1000, some 2000, some 4000] := by
  constructor
  · simp [calculateBackoffDelay, Config.backoffMultiplier]
  · rfl

/-- A submission whose input quantity is the string "0" and whose other
fields are all present and valid. -/
def zeroAmountRequest : CreateOrderRequest :=
  ⟨some "user-1", some "MARKET", some "BUY", some "SOL", some "USDC",
    some "0", none, none⟩

/-- C6 counterexample: the admission endpoint does not reject an input
quantity of "0" — the request passes validation (the handler only checks
field presence, and the string "0" is truthy) and a PENDING order with
`inputAmount = "0"` is created and enqueued. -/
theorem c6_zero_input_admitted_counterexample :
    (admittedOrder (executeOrderRoute zeroAmountRequest RedisState.unavailable
        "order-0" 2)).map Order.inputAmount = some (some "0").get! ∧
    (admittedOrder (executeOrderRoute zeroAmountRequest RedisState.unavailable
        "order-0" 2)).map Order.status = some OrderStatus.PENDING := by
  constructor <;> rfl

/-- C6 amended: admission validates only field presence, order-type
membership, the LIMIT target-output requirement and the rate limit; it
never checks that the input quantity is positive, so a submission whose
input quantity is "0" but which passes those checks is admitted — a
PENDING order carrying `inputAmount = "0"` is created and enqueued. -/
theorem c6_admission_has_no_positivity_check
    (req : CreateOrderRequest) (redis : RedisState) (oid : String) (now : Nat)
    (hamt : req.inputAmount = some "0")
    (htype : truthyString req.type = true)
    (hside : truthyString req.side = true)
    (hin : truthyString req.inputToken = true)
    (hout : truthyString req.outputToken = true)
    (htv : req.type.getD "" ∈ orderTypeValues)
    (hlim : req.type.getD "" = "LIMIT" → truthyString req.outputAmount = true)
    (hrl : isRateLimited redis (req.userId.getD "default") = false) :
    ∃ o, executeOrderRoute req redis oid now = AdmissionResult.created o
      ∧ o.inputAmount = "0" ∧ o.status = OrderStatus.PENDING := by
  have hcond3 : ¬ (req.type.getD "" = "LIMIT" ∧
      ¬ truthyString req.outputAmount) := by
    rintro ⟨hL, hno⟩
    exact hno (hlim hL)
  have hamt' : truthyString req.inputAmount = true := by
    rw [hamt]
    rfl
  refine ⟨⟨oid, req.userId.getD "default", req.type.getD "",
    req.side.getD "", req.inputToken.getD "", req.outputToken.getD "",
    req.inputAmount.getD "", req.outputAmount, req.slippageBps.getD 100,
    OrderStatus.PENDING, none, none, none, none, 0, now, now, none⟩,
    ?_, ?_, rfl⟩
  · simp [executeOrderRoute, htype, hside, hin, hout, hamt', htv, hcond3, hrl]
    exact hlim
  · simp [hamt]

/-- C6 witness: the amended admission theorem applied to the concrete
zero-quantity request. -/
theorem c6_admission_no_positivity_witness :
    zeroAmountRequest.inputAmount = some "0"
    ∧ ∃ o, executeOrderRoute zeroAmountRequest RedisState.unavailable
        "order-0" 2 = AdmissionResult.created o
      ∧ o.inputAmount = "0" ∧ o.status = OrderStatus.PENDING :=
  ⟨rfl,
    c6_admission_has_no_positivity_check zeroAmountRequest
      RedisState.unavailable "order-0" 2 rfl rfl rfl rfl rfl
      (by simp [zeroAmountRequest, orderTypeValues])
      (by intro h; simp [zeroAmountRequest] at h) rfl⟩

/-- A terminal `ORDER_COMPLETE` event as the worker broadcasts it. -/
def completeMsg : WSMessage :=
  ⟨WSMessageType.ORDER_COMPLETE, "order-7", 9, WSData.workerPayload⟩

/-- C7: the code never closes subscriber streams on terminal states — a
subscriber connecting after the order is CONFIRMED gets the snapshot but
its socket stays open, and broadcasting the terminal `ORDER_COMPLETE`
event to a connected subscriber also leaves the socket open
(`broadcastOrderUpdate` only sends). -/
theorem c7_terminal_event_leaves_stream_open :
    (subscribeToOrder "order-7" (some confirmedOrder) 9 ⟨true, []⟩).isOpen = true
    ∧ (broadcastOrderUpdate completeMsg [⟨true, []⟩]).map WSConn.isOpen =
      [true] := by
  constructor <;> rfl

/-- C8. A new subscription immediately receives a synthetic
`ORDER_STATUS` snapshot carrying the order\u2019s current state, appended
after everything already delivered and before any future event, and the
socket stays open; for an unknown order id an `ERROR` event is sent and
the socket is closed. -/
theorem c8_subscribe_snapshot_or_error
    (oid : String) (ord : Order) (now : Nat) (conn : WSConn) :
    ((subscribeToOrder oid (some ord) now conn).sent =
      conn.sent ++ [⟨WSMessageType.ORDER_STATUS, oid, now,
        WSData.orderSnapshot ord.status ord⟩]
    ∧ (subscribeToOrder oid (some ord) now conn).isOpen = conn.isOpen)
    ∧ ((subscribeToOrder oid none now conn).sent =
      conn.sent ++ [⟨WSMessageType.ERROR, oid, now,
        WSData.errorMessage "Order not found"⟩]
    ∧ (subscribeToOrder oid none now conn).isOpen = false) :=
  ⟨⟨rfl, rfl⟩, rfl, rfl⟩

/-- With the rate-limit check forced false, the admission route can reach
every outcome except the 429 throttling rejection. -/
lemma executeOrderRoute_not_throttled (req : CreateOrderRequest)
    (st : RedisState) (oid : String) (now : Nat)
    (hst : isRateLimited st (req.userId.getD "default") = false) :
    executeOrderRoute req st oid now ≠
      AdmissionResult.rejected 429
        "Rate limit exceeded. Maximum 100 orders per minute." := by
  unfold executeOrderRoute
  intro hcontra
  split at hcontra
  · simp at hcontra
  · split at hcontra
    · simp at hcontra
    · split at hcontra
      · simp at hcontra
      · simp [hst] at hcontra

/-- C10. When the Redis client is unavailable or its increment throws,
`incrementRateLimit` answers 1 for every call, `isRateLimited` is
therefore false for every owner, and the admission route never returns
the 429 throttling rejection: every otherwise-valid submission is
admitted. -/
theorem c10_rate_limit_disabled_without_redis
    (st : RedisState) (userId : String)
    (h : st = RedisState.unavailable ∨ st = RedisState.failing) :
    incrementRateLimit st userId = (1, st)
    ∧ isRateLimited st userId = false
    ∧ ∀ (req : CreateOrderRequest) (oid : String) (now : Nat),
        executeOrderRoute req st oid now ≠
          AdmissionResult.rejected 429
            "Rate limit exceeded. Maximum 100 orders per minute." := by
  have h1 : incrementRateLimit st userId = (1, st) := by
    rcases h with h | h <;> subst h <;> rfl
  have h2 : ∀ u : String, isRateLimited st u = false := by
    intro u
    rcases h with h | h <;> subst h <;> rfl
  refine ⟨h1, h2 userId, ?_⟩
  intro req oid now
  exact executeOrderRoute_not_throttled req st oid now (h2 _)

/-- C10 witness: the fallback theorem applied to the never-connected
Redis client. -/
theorem c10_rate_limit_disabled_witness :
    (RedisState.unavailable = RedisState.unavailable ∨
      RedisState.unavailable = RedisState.failing)
    ∧ (incrementRateLimit RedisState.unavailable "user-1" =
        (1, RedisState.unavailable)
      ∧ isRateLimited RedisState.unavailable "user-1" = false
      ∧ ∀ (req : CreateOrderRequest) (oid : String) (now : Nat),
          executeOrderRoute req RedisState.unavailable oid now ≠
            AdmissionResult.rejected 429
              "Rate limit exceeded. Maximum 100 orders per minute.") :=
  ⟨Or.inl rfl,
    c10_rate_limit_disabled_without_redis RedisState.unavailable "user-1"
      (Or.inl rfl)⟩

/-- Replacing the element at a valid index changes `countP` by the
difference of the predicate on the new and old elements. -/
lemma countP_set_add {α : Type} (p : α → Bool) :
    ∀ (l : List α) (i : Nat) (x y : α), l[i]? = some y →
      (l.set i x).countP p + (if p y then 1 else 0) =
        l.countP p + (if p x then 1 else 0)
  | [], i, x, y, h => by simp at h
  | a :: t, 0, x, y, h => by
      have hy : a = y := by simpa using h
      subst hy
      by_cases hx : p x <;> by_cases ha : p a <;>
        simp [List.countP_cons, hx, ha]
  | a :: t, i + 1, x, y, h => by
      have h' : t[i]? = some y := by simpa using h
      have ih := countP_set_add p t i x y h'
      by_cases ha : p a <;> by_cases hx : p x <;> by_cases hy : p y <;>
        simp [List.countP_cons, ha, hx, hy] at ih ⊢ <;> omega

/-- C9 counterexample trace, final state: with a worker pool of size
`N = 1`, order 0 started, failed its first attempt (entering the retry
backoff with its ROUTING status left in place), and order 1 then started
— two orders bear the ROUTING status at once. -/
def overloadedState : List OrderProc :=
  [⟨OrderStatus.ROUTING, WorkerMode.delayed, 1⟩,
    ⟨OrderStatus.ROUTING, WorkerMode.active, 0⟩]

/-- C9 counterexample: with pool size `N = 1` the dispatcher reaches a
state in which 2 > N orders are in ROUTING simultaneously, because a
failed attempt leaves the order's pipeline status in place while the
order waits out its retry backoff, and the freed slot starts another
order. -/
theorem c9_pipeline_statuses_exceed_pool_counterexample :
    Reachable 1 overloadedState ∧ 1 < countPipeline overloadedState := by
  constructor
  · have h0 : Reachable 1 (List.replicate 2
        ⟨OrderStatus.PENDING, WorkerMode.queued, 0⟩) := Reachable.init 2
    have h1 : Reachable 1 [⟨OrderStatus.ROUTING, WorkerMode.active, 0⟩,
        ⟨OrderStatus.PENDING, WorkerMode.queued, 0⟩] :=
      h0.step (Step.start _ 0 OrderStatus.PENDING WorkerMode.queued 0
        (by decide) (Or.inl rfl) (by decide))
    have h2 : Reachable 1 [⟨OrderStatus.ROUTING, WorkerMode.delayed, 1⟩,
        ⟨OrderStatus.PENDING, WorkerMode.queued, 0⟩] :=
      h1.step (Step.failRetry _ 0 OrderStatus.ROUTING 0 (by decide) (by decide))
    exact h2.step (Step.start _ 1 OrderStatus.PENDING WorkerMode.queued 0
      (by decide) (Or.inl rfl) (by decide))
  · decide

/-- C9 amended: the worker pool never runs more than `N` order pipelines
concurrently — in every reachable dispatcher state at most `N` orders are
active — but the number of orders bearing a ROUTING/BUILDING/SUBMITTED
status may exceed `N`, because an order awaiting its retry backoff keeps
the pipeline status of its failed attempt. -/
theorem c9_active_pipelines_bounded (N : Nat) (s : List OrderProc)
    (h : Reachable N s) : countActive s ≤ N := by
  induction h with
  | init k =>
      have hz : countActive (List.replicate k
          (⟨OrderStatus.PENDING, WorkerMode.queued, 0⟩ : OrderProc)) = 0 := by
        rw [countActive, List.countP_eq_zero]
        intro a ha
        rw [List.eq_of_mem_replicate ha]
        decide
      omega
  | @step s1 s2 hr hstep ih =>
      cases hstep with
      | start i st mode m hget hmode hlt =>
          have hc := countP_set_add
            (fun o => decide (o.mode = WorkerMode.active)) s1 i
            ⟨OrderStatus.ROUTING, WorkerMode.active, m⟩ ⟨st, mode, m⟩ hget
          rcases hmode with hm | hm <;> subst hm <;>
            simp [countActive] at hc ih hlt ⊢ <;> omega
      | toBuilding i m hget =>
          have hc := countP_set_add
            (fun o => decide (o.mode = WorkerMode.active)) s1 i
            ⟨OrderStatus.BUILDING, WorkerMode.active, m⟩
            ⟨OrderStatus.ROUTING, WorkerMode.active, m⟩ hget
          simp [countActive] at hc ih ⊢
          omega
      | toSubmitted i m hget =>
          have hc := countP_set_add
            (fun o => decide (o.mode = WorkerMode.active)) s1 i
            ⟨OrderStatus.SUBMITTED, WorkerMode.active, m⟩
            ⟨OrderStatus.BUILDING, WorkerMode.active, m⟩ hget
          simp [countActive] at hc ih ⊢
          omega
      | toConfirmed i m hget =>
          have hc := countP_set_add
            (fun o => decide (o.mode = WorkerMode.active)) s1 i
            ⟨OrderStatus.CONFIRMED, WorkerMode.done, m⟩
            ⟨OrderStatus.SUBMITTED, WorkerMode.active, m⟩ hget
          simp [countActive] at hc ih ⊢
          omega
      | failRetry i st m hget hm =>
          have hc := countP_set_add
            (fun o => decide (o.mode = WorkerMode.active)) s1 i
            ⟨st, WorkerMode.delayed, m + 1⟩ ⟨st, WorkerMode.active, m⟩ hget
          simp [countActive] at hc ih ⊢
          omega
      | failFinal i st m hget hm =>
          have hc := countP_set_add
            (fun o => decide (o.mode = WorkerMode.active)) s1 i
            ⟨OrderStatus.FAILED, WorkerMode.done, m + 1⟩
            ⟨st, WorkerMode.active, m⟩ hget
          simp [countActive] at hc ih ⊢
          omega

/-- C9 witness: the concurrency bound applied to a concrete reachable
state, a freshly admitted batch of two orders with pool size 1. -/
theorem c9_active_pipelines_bounded_witness :
    Reachable 1 (List.replicate 2
      (⟨OrderStatus.PENDING, WorkerMode.queued, 0⟩ : OrderProc))
    ∧ countActive (List.replicate 2
      (⟨OrderStatus.PENDING, WorkerMode.queued, 0⟩ : OrderProc)) ≤ 1 :=
  ⟨Reachable.init 2,
    c9_active_pipelines_bounded 1 _ (Reachable.init 2)⟩

end DexBot